import Mathlib

/-!
Shallow embedding of the Redpanda Kafka fetch-handler state
(`src/v/kafka/server/handlers/fetch.h`) and proofs of the specification
claims about it.

Machine integers are modelled as `Int`/`Nat` with explicit truncation where
the C++ code casts; `std::optional` becomes `Option`, and the monotone clock
is passed explicitly as a `Nat` tick count (`model::timeout_clock::time_point`).
-/

namespace RedpandaFetch

/-- A per-partition entry of a fetch request
(`fetch_request::partition`: `partition_index`, `max_bytes`, `fetch_offset`). -/
structure fetch_partition where
  partition_index : Int
  max_bytes : Int
  fetch_offset : Int
  deriving Repr, DecidableEq

/-- A per-topic entry of a fetch request (`fetch_request::topic`). -/
structure fetch_topic where
  name : String
  partitions : List fetch_partition
  deriving Repr, DecidableEq

/-- The decoded fetch request (`fetch_request` / `fetch_request_data`):
the fields the fetch-operation context reads. `min_bytes` is the wire
format's signed 32-bit field, `max_wait_ms` the requested wait. -/
structure fetch_request where
  min_bytes : Int
  max_wait_ms : Int
  topics : List fetch_topic
  deriving Repr, DecidableEq

/-- The flattened, ordered partition set listed by a request: every
`(topic name, partition)` pair, topics in request order and partitions in
request order inside each topic — the traversal order of
`fetch_request::cbegin()/cend()`. -/
def fetch_request.partitionList (r : fetch_request) :
    List (String × fetch_partition) :=
  r.topics.flatMap (fun t => t.partitions.map (fun p => (t.name, p)))

/-- Modelled from the spec: `fetch_request::debounce_delay()` is declared in
`kafka/protocol/fetch.h`, which is outside the sampled sources. The spec
describes the corresponding stop condition as "caller did not request a wait
(min-wait of zero / non-blocking)", so the caller requested a wait exactly
when the requested wait duration is positive. -/
def fetch_request.debounce_delay (r : fetch_request) : Bool :=
  r.max_wait_ms > 0

/-- Modelled from the spec: `fetch_request::empty()` is declared in
`kafka/protocol/fetch.h`, outside the sampled sources. The spec reads "the
resolved partition set is empty (all partitions already satisfied or none
present)" and, for sessionless requests, the resolved set is exactly the
requested partition set, so a request is empty when it lists no partitions. -/
def fetch_request.empty (r : fetch_request) : Bool :=
  r.partitionList.isEmpty

/-- A partition as stored in a fetch session
(`fetch_session_partition`: topic, partition, max_bytes, fetch_offset). -/
structure fetch_session_partition where
  topic : String
  partition : Int
  max_bytes : Int
  fetch_offset : Int
  deriving Repr, DecidableEq

/-- Modelled from the spec: the fetch session type lives in
`kafka/server/fetch_session.h`, outside the sampled sources. Per the spec a
session "owns an insertion-ordered mapping from topic-partition to last-known
cursor", so it is embedded as the insertion-ordered list of its partitions. -/
structure fetch_session where
  partitions : List fetch_session_partition
  deriving Repr, DecidableEq

/-- Modelled from the spec: `fetch_session::empty()` — the stored partition
set is empty. -/
def fetch_session.empty (s : fetch_session) : Bool :=
  s.partitions.isEmpty

/-- Modelled from the spec: `fetch_session_ctx` (outside the sampled sources)
carries an optional session handle and a full-fetch flag;
`is_sessionless()` holds when no session is attached, `is_full_fetch()`
reports the flag, and `session()` dereferences the handle. -/
structure fetch_session_ctx where
  session : Option fetch_session
  full_fetch : Bool
  deriving Repr, DecidableEq

/-- `fetch_session_ctx::is_sessionless()`. -/
def fetch_session_ctx.is_sessionless (c : fetch_session_ctx) : Bool :=
  c.session.isNone

/-- `fetch_session_ctx::is_full_fetch()`. -/
def fetch_session_ctx.is_full_fetch (c : fetch_session_ctx) : Bool :=
  c.full_fetch

/-- The fetch operation context (`op_context`): the fields read by the
stop-decision predicates. `response_size` is a `size_t` byte count,
`deadline` an optional absolute time point. -/
structure op_context where
  request : fetch_request
  bytes_left : Nat
  deadline : Option Nat
  response_size : Nat
  response_error : Bool
  initial_fetch : Bool
  session_ctx : fetch_session_ctx
  deriving Repr, DecidableEq

/-- Truncation of a `size_t` value to `int32_t`, as performed by
`static_cast<int32_t>(response_size)`: reduce modulo 2^32 and reinterpret
the high-bit range as negative. -/
def toInt32 (n : Nat) : Int :=
  if n % 4294967296 < 2147483648 then
    ((n % 4294967296 : Nat) : Int)
  else
    ((n % 4294967296 : Nat) : Int) - 4294967296

/-- `op_context::over_min_bytes()`:
`static_cast<int32_t>(response_size) >= request.data.min_bytes`. -/
def op_context.over_min_bytes (st : op_context) : Bool :=
  toInt32 st.response_size ≥ st.request.min_bytes

/-- `op_context::is_empty_request()`: for a sessionless or full-fetch request
only the request content is checked; otherwise both the session and the
request must be empty. -/
def op_context.is_empty_request (st : op_context) : Bool :=
  match st.session_ctx.session, st.session_ctx.full_fetch with
  | none, _ => st.request.empty
  | some _, true => st.request.empty
  | some s, false => s.empty && st.request.empty

/-- Comparison `deadline <= model::timeout_clock::now()` where `deadline` is
`std::optional<time_point>`: per the C++ standard's mixed
`optional`/value comparison, an empty optional compares less than (hence
less-than-or-equal to) every engaged value. -/
def optTimeLE (d : Option Nat) (now : Nat) : Bool :=
  match d with
  | none => true
  | some t => t ≤ now

/-- `op_context::should_stop_fetch()`, with the clock passed explicitly:
`!request.debounce_delay() || over_min_bytes() || is_empty_request()
 || response_error || deadline <= now`. -/
def op_context.should_stop_fetch (st : op_context) (now : Nat) : Bool :=
  !st.request.debounce_delay || st.over_min_bytes || st.is_empty_request
    || st.response_error || optTimeLE st.deadline now

/-- `op_context::for_each_fetch_partition(f)`, embedded as a fold threading
an accumulator through the visits in the order the code makes them: for a
full-fetch or sessionless request, every listed partition in request order,
packaged as a `fetch_session_partition` from the topic name and the
partition's index, max bytes and fetch offset; otherwise the session's
stored partitions in insertion order. -/
def op_context.for_each_fetch_partition {α : Type}
    (st : op_context) (f : fetch_session_partition → α → α) (a : α) : α :=
  if st.session_ctx.is_full_fetch || st.session_ctx.is_sessionless then
    st.request.partitionList.foldl
      (fun acc tp =>
        f { topic := tp.1
            partition := tp.2.partition_index
            max_bytes := tp.2.max_bytes
            fetch_offset := tp.2.fetch_offset } acc) a
  else
    match st.session_ctx.session with
    | some s => s.partitions.foldl (fun acc p => f p acc) a
    | none => a

/-- The sequence of partitions `for_each_fetch_partition` visits, in visit
order, obtained by folding with list-append. -/
def op_context.visitedPartitions (st : op_context) :
    List fetch_session_partition :=
  st.for_each_fetch_partition (fun p l => l ++ [p]) []

/-- Kafka protocol error codes appearing in fetch results (`error_code`);
only the distinguished `none` value matters to the claims, other codes are
carried abstractly by their numeric value. -/
inductive error_code where
  | none
  | code (v : Int)
  deriving Repr, DecidableEq

/-- A contiguous byte payload (`iobuf`), abstracted to its byte list. -/
def iobuf := List Nat
deriving instance Repr, DecidableEq for iobuf

/-- `iobuf::empty()`. -/
def iobuf.isEmpty (b : iobuf) : Bool := List.isEmpty b

/-- An aborted-transaction range (`cluster::rm_stm::tx_range`). -/
structure tx_range where
  pid : Int
  first : Int
  last : Int
  deriving Repr, DecidableEq

/-- `read_result::variant_t = std::variant<data_t, foreign_data_t>`:
`data_t` is a `unique_ptr<iobuf>` (possibly null, hence `Option`),
`foreign_data_t` a foreign pointer to a live `iobuf`. -/
inductive read_variant where
  | data (d : Option iobuf)
  | foreign (d : iobuf)
  deriving Repr, DecidableEq

/-- `read_result`: the per-partition outcome of a log read — a data variant,
offsets, an error code, the partition id and the aborted-transaction list. -/
structure read_result where
  data : read_variant
  start_offset : Int
  high_watermark : Int
  last_stable_offset : Int
  error : error_code
  partition : Int
  aborted_transactions : List tx_range
  deriving Repr, DecidableEq

/-- `read_result(error_code e)`: the error constructor. The other members
are default-initialized — the variant holds its first alternative with a
null `unique_ptr`, the offsets and partition id their zero defaults. -/
def read_result.ofError (e : error_code) : read_result :=
  { data := .data Option.none
    start_offset := 0
    high_watermark := 0
    last_stable_offset := 0
    error := e
    partition := 0
    aborted_transactions := [] }

/-- `read_result(variant_t data, offset start, offset hw, offset lso,
vector<tx_range> aborted)`: the data constructor — sets `error` to
`error_code::none`. -/
def read_result.ofData (d : read_variant) (start hw lso : Int)
    (aborted : List tx_range) : read_result :=
  { data := d
    start_offset := start
    high_watermark := hw
    last_stable_offset := lso
    error := error_code.none
    partition := 0
    aborted_transactions := aborted }

/-- `read_result(offset start, offset hw, offset lso)`: the offsets-only
constructor — no payload, `error` set to `error_code::none`. -/
def read_result.ofOffsets (start hw lso : Int) : read_result :=
  { data := .data Option.none
    start_offset := start
    high_watermark := hw
    last_stable_offset := lso
    error := error_code.none
    partition := 0
    aborted_transactions := [] }

/-- `read_result::has_data()`: for the owned alternative, the pointer is
non-null; for the foreign alternative, the pointed-to buffer is non-empty. -/
def read_result.has_data (r : read_result) : Bool :=
  match r.data with
  | .data d => d.isSome
  | .foreign d => !d.isEmpty

/-- `model::ntp`: namespace / topic / partition identifier. -/
structure ntp where
  ns : String
  topic : String
  partition : Int
  deriving Repr, DecidableEq

/-- `model::isolation_level`. -/
inductive isolation_level where
  | read_uncommitted
  | read_committed
  deriving Repr, DecidableEq

/-- `fetch_config`: the per-partition read parameters. -/
structure fetch_config where
  start_offset : Int
  max_offset : Int
  isolation : isolation_level
  max_bytes : Nat
  timeout : Nat
  strict_max_bytes : Bool
  deriving Repr, DecidableEq

/-- `ntp_fetch_config`: an ntp, its fetch parameters and the optional
materialized ntp. -/
structure ntp_fetch_config where
  ntp : RedpandaFetch.ntp
  cfg : fetch_config
  materialized_ntp : Option RedpandaFetch.ntp
  deriving Repr, DecidableEq

/-- `ntp_fetch_config::is_materialized()`. -/
def ntp_fetch_config.is_materialized (c : ntp_fetch_config) : Bool :=
  c.materialized_ntp.isSome

/-- A response-slot handle (`op_context::response_iterator`), abstracted to
the index of the slot it points at. -/
structure response_slot where
  index : Nat
  deriving Repr, DecidableEq

/-- `shard_fetch`: the fetch requests and matching response handles
aggregated for one shard. -/
structure shard_fetch where
  requests : List ntp_fetch_config
  responses : List response_slot
  deriving Repr, DecidableEq

/-- `shard_fetch::push_back(config, it)`: appends the config to `requests`
and the handle to `responses`. -/
def shard_fetch.push_back (s : shard_fetch) (config : ntp_fetch_config)
    (it : response_slot) : shard_fetch :=
  { requests := s.requests ++ [config]
    responses := s.responses ++ [it] }

/-- `shard_fetch::empty()`: asserts (`vassert`) that `requests` and
`responses` have equal sizes, then reports whether `requests` is empty.
The failed assertion is modelled as `Option.none`. -/
def shard_fetch.isEmpty (s : shard_fetch) : Option Bool :=
  if s.requests.length = s.responses.length then
    some s.requests.isEmpty
  else
    Option.none

/-- The default-constructed (empty) `shard_fetch`. -/
def shard_fetch.init : shard_fetch :=
  { requests := [], responses := [] }

/-- A `shard_fetch` built from the empty state by a sequence of
`push_back` calls, one per listed (config, slot) pair. -/
def shard_fetch.ofPushes (ops : List (ntp_fetch_config × response_slot)) :
    shard_fetch :=
  ops.foldl (fun s op => s.push_back op.1 op.2) shard_fetch.init

/-! ## Theorems -/

/-- The C++ truncating cast agrees with the balanced residue modulo 2^32:
"response_size modulo 2^32, reinterpreted as signed". -/
theorem toInt32_eq_bmod (n : Nat) :
    toInt32 n = Int.bmod (n : Int) 4294967296 := by
  unfold toInt32 Int.bmod
  have h : (n : Int) % (4294967296 : Nat) = ((n % 4294967296 : Nat) : Int) := by
    push_cast
    rfl
  rw [h]
  have h2 : (((4294967296 : Nat) : Int) + 1) / 2 = (2147483648 : Int) := by decide
  norm_num
  omega

/-- C1: `should_stop_fetch` holds exactly when at least one of the five stop
conditions does: the caller did not request a wait (no positive debounce
delay), the response size has reached `min_bytes` under the signed 32-bit
truncation, the resolved request is empty, a response error is set, or the
deadline (when present) is at or before the current time. -/
theorem should_stop_fetch_characterization (st : op_context) (now : Nat) :
    st.should_stop_fetch now = true ↔
      (st.request.max_wait_ms ≤ 0
        ∨ Int.bmod (st.response_size : Int) 4294967296 ≥ st.request.min_bytes
        ∨ st.is_empty_request = true
        ∨ st.response_error = true
        ∨ ∀ t, st.deadline = some t → t ≤ now) := by
  rw [op_context.should_stop_fetch]
  simp only [Bool.or_eq_true, Bool.not_eq_true', op_context.over_min_bytes,
    fetch_request.debounce_delay, toInt32_eq_bmod, ge_iff_le,
    decide_eq_true_eq, decide_eq_false_iff_not, not_lt]
  cases hd : st.deadline with
  | none => simp [optTimeLE]
  | some t =>
    simp only [optTimeLE, decide_eq_true_eq, Option.some.injEq,
      forall_eq_apply_imp_iff, forall_eq]
    constructor
    · rintro ((((h | h) | h) | h) | h)
      · exact Or.inl h
      · exact Or.inr (Or.inl h)
      · exact Or.inr (Or.inr (Or.inl h))
      · exact Or.inr (Or.inr (Or.inr (Or.inl h)))
      · exact Or.inr (Or.inr (Or.inr (Or.inr (fun u hu => by
          cases hu
          exact h))))
    · rintro (h | h | h | h | h)
      · exact Or.inl (Or.inl (Or.inl (Or.inl h)))
      · exact Or.inl (Or.inl (Or.inl (Or.inr h)))
      · exact Or.inl (Or.inl (Or.inr h))
      · exact Or.inl (Or.inr h)
      · exact Or.inr (h t rfl)

/-- A one-partition sessionless request state with `min_bytes = 0`, a
positive wait, no error, a pending deadline, and `response_size = 2^31`
(whose `int32_t` truncation is negative). -/
def overflow_state : op_context :=
  { request :=
      { min_bytes := 0
        max_wait_ms := 500
        topics :=
          [{ name := "t"
             partitions :=
               [{ partition_index := 0
                  max_bytes := 1048576
                  fetch_offset := 0 }] }] }
    bytes_left := 1048576
    deadline := some 1000
    response_size := 2147483648
    response_error := false
    initial_fetch := false
    session_ctx := { session := Option.none, full_fetch := false } }

/-- C2 counterexample: with `min_bytes = 0` but `response_size = 2^31`, the
`static_cast<int32_t>` in `over_min_bytes` wraps to `-2^31 < 0`, so with a
positive wait, a nonempty request, no error and an unexpired deadline,
`should_stop_fetch` is `false` — the operation would enter a second pass. -/
theorem min_bytes_nonpos_counterexample :
    overflow_state.request.min_bytes ≤ 0
      ∧ overflow_state.should_stop_fetch 0 = false := by
  constructor
  · decide
  · rfl

/-- C2 (amended): for every state whose `min_bytes` is at most zero and whose
`response_size` is below 2^31 (so the `int32_t` truncation is the value
itself — always the case in practice, the response being bounded by the
signed 32-bit byte budget), `should_stop_fetch` is true: `over_min_bytes`
already holds, so no second debounce pass is entered. -/
theorem min_bytes_nonpos_stops_first_pass (st : op_context) (now : Nat)
    (hmin : st.request.min_bytes ≤ 0)
    (hsize : st.response_size < 2147483648) :
    st.should_stop_fetch now = true := by
  have hover : st.over_min_bytes = true := by
    rw [op_context.over_min_bytes, toInt32_eq_bmod]
    have hb : Int.bmod (st.response_size : Int) 4294967296
        = (st.response_size : Int) := by
      rw [Int.bmod]
      have h1 : (st.response_size : Int) % ((4294967296 : Nat) : Int)
          = (st.response_size : Int) := by
        rw [Int.emod_eq_of_lt] <;> omega
      rw [h1]
      have h2 : (st.response_size : Int) < (((4294967296 : Nat) : Int) + 1) / 2 := by
        push_cast
        omega
      simp only [h2, if_true]
    rw [hb]
    simp only [ge_iff_le, decide_eq_true_eq]
    omega
  rw [op_context.should_stop_fetch, hover]
  simp

/-- C2 witness: the amended theorem applied to a concrete state. -/
theorem min_bytes_nonpos_stops_first_pass_witness :
    { overflow_state with response_size := 0 }.should_stop_fetch 0 = true :=
  min_bytes_nonpos_stops_first_pass _ 0 (by decide) (by decide)

/-- C3: whenever `response_error` is set, `should_stop_fetch` is true, no
matter the accumulated size, the minimum-bytes requirement or the deadline. -/
theorem response_error_stops_fetch (st : op_context) (now : Nat)
    (herr : st.response_error = true) :
    st.should_stop_fetch now = true := by
  rw [op_context.should_stop_fetch, herr]
  simp

/-- C3 witness: a concrete errored state stops. -/
theorem response_error_stops_fetch_witness :
    { overflow_state with response_error := true }.should_stop_fetch 0 = true :=
  response_error_stops_fetch _ 0 rfl

/-- C4: `over_min_bytes` holds exactly when `response_size` reduced modulo
2^32 and reinterpreted as a signed 32-bit value is at least `min_bytes`;
in particular, with `min_bytes ≤ 0` the comparison already holds at
`response_size = 0`. -/
theorem over_min_bytes_signed_truncation (st : op_context) :
    (st.over_min_bytes = true ↔
      Int.bmod (st.response_size : Int) 4294967296 ≥ st.request.min_bytes)
    ∧ (st.request.min_bytes ≤ 0 → st.response_size = 0 →
        st.over_min_bytes = true) := by
  constructor
  · rw [op_context.over_min_bytes, toInt32_eq_bmod]
    simp
  · intro hmin hz
    rw [op_context.over_min_bytes, hz]
    simp only [toInt32, ge_iff_le, decide_eq_true_eq]
    norm_num
    omega

/-- C4 witness: the truncation characterization at a concrete state with
`min_bytes = 0` and an empty response. -/
theorem over_min_bytes_signed_truncation_witness :
    { overflow_state with response_size := 0 }.over_min_bytes = true :=
  (over_min_bytes_signed_truncation _).2 (by decide) rfl

/-- C7: `should_stop_fetch` cannot flip back as time advances — a state that
stops at time `t` also stops at every later time `u`; the predicate reads
but never mutates the state, and only its deadline disjunct depends on the
clock, monotonically. -/
theorem should_stop_fetch_idempotent (st : op_context) (t u : Nat)
    (hle : t ≤ u) (hstop : st.should_stop_fetch t = true) :
    st.should_stop_fetch u = true := by
  rw [op_context.should_stop_fetch] at hstop ⊢
  simp only [Bool.or_eq_true] at hstop ⊢
  rcases hstop with ((((h | h) | h) | h) | h)
  · exact Or.inl (Or.inl (Or.inl (Or.inl h)))
  · exact Or.inl (Or.inl (Or.inl (Or.inr h)))
  · exact Or.inl (Or.inl (Or.inr h))
  · exact Or.inl (Or.inr h)
  · refine Or.inr ?_
    cases hd : st.deadline with
    | none => simp [optTimeLE]
    | some v =>
      rw [hd] at h
      simp only [optTimeLE, decide_eq_true_eq] at h ⊢
      omega

/-- C7 witness: a concretely stopped state stays stopped later. -/
theorem should_stop_fetch_idempotent_witness :
    { overflow_state with response_error := true }.should_stop_fetch 7 = true :=
  should_stop_fetch_idempotent _ 0 7 (by decide) rfl

/-- C9: when the optional deadline holds no value, the comparison
`deadline <= now` is true (an empty optional compares less-than-or-equal to
every time point), so `should_stop_fetch` is true regardless of the other
fields. -/
theorem unset_deadline_stops_fetch (st : op_context) (now : Nat)
    (hd : st.deadline = Option.none) :
    st.should_stop_fetch now = true := by
  rw [op_context.should_stop_fetch, hd]
  simp [optTimeLE]

/-- C9 witness: the concrete overflow state with its deadline removed. -/
theorem unset_deadline_stops_fetch_witness :
    { overflow_state with deadline := Option.none }.should_stop_fetch 0 = true :=
  unset_deadline_stops_fetch _ 0 rfl

/-- The packaging of a requested `(topic name, partition)` pair into the
`fetch_session_partition` that `for_each_fetch_partition` hands to its
callback. -/
def toSessionPartition (tp : String × fetch_partition) :
    fetch_session_partition :=
  { topic := tp.1
    partition := tp.2.partition_index
    max_bytes := tp.2.max_bytes
    fetch_offset := tp.2.fetch_offset }

/-- Folding list-append over a traversal collects exactly the traversed
elements, mapped, in traversal order. -/
theorem foldl_append_map {α β : Type} (g : α → β) (l : List α)
    (acc : List β) :
    l.foldl (fun a x => a ++ [g x]) acc = acc ++ l.map g := by
  induction l generalizing acc with
  | nil => simp
  | cons x xs ih => simp [ih]

/-- C5: `for_each_fetch_partition` visits, for a sessionless or full-fetch
request, exactly the request's listed partitions in request order, each
carrying its topic name, partition index, max bytes and fetch offset; and
for a session-backed (incremental) request, exactly the session's stored
partitions in insertion order. -/
theorem for_each_fetch_partition_visits (st : op_context) :
    ((st.session_ctx.is_sessionless = true
        ∨ st.session_ctx.is_full_fetch = true) →
      st.visitedPartitions = st.request.partitionList.map toSessionPartition)
    ∧ (∀ s, st.session_ctx.session = some s →
        st.session_ctx.is_full_fetch = false →
        st.visitedPartitions = s.partitions) := by
  constructor
  · intro hcase
    have hcond : (st.session_ctx.is_full_fetch
        || st.session_ctx.is_sessionless) = true := by
      rcases hcase with h | h <;> simp [h]
    rw [op_context.visitedPartitions, op_context.for_each_fetch_partition,
      if_pos hcond]
    simpa [toSessionPartition] using
      foldl_append_map toSessionPartition st.request.partitionList []
  · intro s hs hff
    have hsl : st.session_ctx.is_sessionless = false := by
      simp [fetch_session_ctx.is_sessionless, hs]
    have hcond : (st.session_ctx.is_full_fetch
        || st.session_ctx.is_sessionless) = false := by
      rw [fetch_session_ctx.is_full_fetch] at hff ⊢
      simp [hff, hsl]
    rw [op_context.visitedPartitions, op_context.for_each_fetch_partition,
      if_neg (by simp [hcond]), hs]
    simpa using foldl_append_map (fun p => p) s.partitions []

/-- A one-partition incremental (session-backed) context. -/
def incremental_state : op_context :=
  { overflow_state with
    session_ctx :=
      { session := some
          { partitions :=
              [{ topic := "t"
                 partition := 3
                 max_bytes := 100
                 fetch_offset := 42 }] }
        full_fetch := false } }

/-- C5 witness: the visit lists of a concrete sessionless context and a
concrete incremental context. -/
theorem for_each_fetch_partition_visits_witness :
    overflow_state.visitedPartitions
        = overflow_state.request.partitionList.map toSessionPartition
      ∧ incremental_state.visitedPartitions
        = [{ topic := "t", partition := 3, max_bytes := 100,
             fetch_offset := 42 }] :=
  ⟨(for_each_fetch_partition_visits overflow_state).1 (Or.inl rfl),
   (for_each_fetch_partition_visits incremental_state).2 _ rfl rfl⟩

/-- C6: `is_empty_request` holds, for a sessionless or full-fetch request,
exactly when the request lists no partitions; for a session-backed request,
exactly when both the stored session set and the request diff are empty; and
an empty request always makes `should_stop_fetch` true. -/
theorem is_empty_request_characterization (st : op_context) (now : Nat) :
    ((st.session_ctx.is_sessionless = true
        ∨ st.session_ctx.is_full_fetch = true) →
      (st.is_empty_request = true ↔ st.request.partitionList = []))
    ∧ (∀ s, st.session_ctx.session = some s →
        st.session_ctx.is_full_fetch = false →
        (st.is_empty_request = true ↔
          s.partitions = [] ∧ st.request.partitionList = []))
    ∧ (st.is_empty_request = true → st.should_stop_fetch now = true) := by
  refine ⟨?_, ?_, ?_⟩
  · intro hcase
    rw [op_context.is_empty_request]
    rcases hcase with h | h
    · rw [fetch_session_ctx.is_sessionless, Option.isNone_iff_eq_none] at h
      rw [h]
      simp [fetch_request.empty]
    · rw [fetch_session_ctx.is_full_fetch] at h
      cases hs : st.session_ctx.session with
      | none => simp [fetch_request.empty]
      | some s => rw [h]; simp [fetch_request.empty]
  · intro s hs hff
    rw [fetch_session_ctx.is_full_fetch] at hff
    rw [op_context.is_empty_request, hs, hff]
    simp [fetch_session.empty, fetch_request.empty, And.comm]
  · intro hempty
    rw [op_context.should_stop_fetch, hempty]
    simp

/-- A sessionless context whose request lists no partitions. -/
def empty_request_state : op_context :=
  { overflow_state with
    request := { min_bytes := 0, max_wait_ms := 500, topics := [] } }

/-- C6 witness: the concrete empty request is recognized as empty and stops
the fetch at once. -/
theorem is_empty_request_characterization_witness :
    empty_request_state.is_empty_request = true
      ∧ empty_request_state.should_stop_fetch 0 = true :=
  ⟨((is_empty_request_characterization empty_request_state 0).1
      (Or.inl rfl)).mpr rfl,
   (is_empty_request_characterization empty_request_state 0).2.2
     (((is_empty_request_characterization empty_request_state 0).1
        (Or.inl rfl)).mpr rfl)⟩

/-- C8: a `read_result` is an error or data, never both — the error
constructor stores the given code and reports no data (its variant holds the
default null pointer), and both data-carrying constructors store
`error_code::none`. -/
theorem read_result_error_data_exclusive :
    (∀ e, (read_result.ofError e).error = e
      ∧ (read_result.ofError e).has_data = false)
    ∧ (∀ d start hw lso ab,
        (read_result.ofData d start hw lso ab).error = error_code.none)
    ∧ (∀ start hw lso,
        (read_result.ofOffsets start hw lso).error = error_code.none) :=
  ⟨fun _ => ⟨rfl, rfl⟩, fun _ _ _ _ _ => rfl, fun _ _ _ => rfl⟩

/-- `push_back` preserves equality of the two list lengths through any fold. -/
theorem pushes_preserve_lengths
    (ops : List (ntp_fetch_config × response_slot)) :
    ∀ s : shard_fetch, s.requests.length = s.responses.length →
      (ops.foldl (fun t op => t.push_back op.1 op.2) s).requests.length
        = (ops.foldl (fun t op => t.push_back op.1 op.2) s).responses.length := by
  induction ops with
  | nil => intro s h; exact h
  | cons op rest ih =>
    intro s h
    exact ih _ (by simp [shard_fetch.push_back, h])

/-- C10: any `shard_fetch` built from the empty state by `push_back` calls
has equally many requests and responses, so the assertion guarding
`shard_fetch::empty()` never fails and `empty()` returns whether the
request list is empty. -/
theorem shard_fetch_lengths_equal
    (ops : List (ntp_fetch_config × response_slot)) :
    ((shard_fetch.ofPushes ops).requests.length
        = (shard_fetch.ofPushes ops).responses.length)
    ∧ (shard_fetch.ofPushes ops).isEmpty
        = some (shard_fetch.ofPushes ops).requests.isEmpty := by
  have h : (shard_fetch.ofPushes ops).requests.length
      = (shard_fetch.ofPushes ops).responses.length :=
    pushes_preserve_lengths ops shard_fetch.init rfl
  exact ⟨h, by rw [shard_fetch.isEmpty, if_pos h]⟩

end RedpandaFetch
